import Mathlib

/-!
Verification of the IDAES-PSE example flowsheet scripts.

Shallow embedding of the repository's scripts over exact rationals:
pump-curve data and piecewise constraint construction from
`Pump_Curves/pump_curves.py`; script control flow (DOF printing, solve
and warm-start sequences) from `Heater_Cooler/heater_cooler.py`,
`Separator/separator.py`, `Pump/pump.py` and `Pump_Curves/pump_curves.py`;
report plumbing from `Separator/separator.py`; default stream
specifications from `Mixer/mixer.py` and `Separator/separator.py`.
Framework behaviour that the scripts call into but whose code is not part
of the repository (degrees-of-freedom bookkeeping, the separator split,
the mixer momentum-mixing policy, the heater energy balance) is modelled
from the specification, with each such definition marked
`Modelled from the spec:`.
-/

namespace IdaesExamples

/-! ### Pump performance-curve data (Pump_Curves/pump_curves.py, lines 11-23) -/

/-- Flow breakpoints in m³/h (`flow_data_m3h`, line 12). -/
def flow_data_m3h : List ℚ :=
  [0, 0.725, 1.451, 2.176, 2.902, 3.265, 3.627, 3.99, 4.353, 4.716]

/-- Head breakpoints in m (`head_data_m`, line 13). -/
def head_data_m : List ℚ :=
  [271.162, 268.903, 266.643, 259.864, 248.565, 237.267, 225.969, 214.67, 198.852, 180.775]

/-- Efficiency breakpoints, dimensionless (`eff_data`, line 14). -/
def eff_data : List ℚ :=
  [0, 0.3, 0.488, 0.638, 0.713, 0.735, 0.75, 0.735, 0.713, 0.675]

/-- Water density in kg/m³ (line 17). -/
def water_density : ℚ := 996.557

/-- Water molecular weight in kg/mol (line 18). -/
def water_mw : ℚ := 0.01801528

/-- Standard gravity in m/s² (line 22). -/
def grav : ℚ := 9.81

/-- The i-th flow breakpoint converted to mol/s (`flow_data_mol_s`, line 19). -/
def flow_pt (i : Nat) : ℚ :=
  flow_data_m3h.getD i 0 * (water_density / water_mw) / 3600

/-- The i-th head breakpoint converted to J/kg (`head_data_J_kg`, line 23). -/
def head_pt (i : Nat) : ℚ :=
  head_data_m.getD i 0 * grav

/-- The i-th efficiency breakpoint (`eff_data[i]`). -/
def eff_pt (i : Nat) : ℚ :=
  eff_data.getD i 0

/-! ### Piecewise-linear constraint construction (pump_curves.py, lines 48-72)

`head_interp_eqn` and `eff_interp_eqn` loop over the segments comparing the
*current numeric value* of `flow_mol` (obtained with Pyomo `value`) against
the breakpoints, and emit the single equality constraint of the first
bracketing segment, or a clamp equation when the value lies outside all
segments.  We embed the emitted constraint as its right-hand side, a
function `ℚ → ℚ` of the symbolic flow variable; the extra argument `q` is
the numeric value used for segment selection at construction time. -/

/-- Segment lookup of lines 51-52 / 64-65: the first index `i` among
`0, …, 8` with `flow[i] ≤ q ≤ flow[i+1]`. -/
def findSeg (q : ℚ) : Option Nat :=
  (List.range 9).find? fun i => decide (flow_pt i ≤ q ∧ q ≤ flow_pt (i + 1))

/-- The affine right-hand side emitted for segment `i` of the head curve
(lines 53-54): `head[i] + slope * (flow_mol - flow[i])`. -/
def headSegAffine (i : Nat) : ℚ → ℚ := fun x =>
  head_pt i + (head_pt (i + 1) - head_pt i) / (flow_pt (i + 1) - flow_pt i) * (x - flow_pt i)

/-- The affine right-hand side emitted for segment `i` of the efficiency
curve (lines 66-67). -/
def effSegAffine (i : Nat) : ℚ → ℚ := fun x =>
  eff_pt i + (eff_pt (i + 1) - eff_pt i) / (flow_pt (i + 1) - flow_pt i) * (x - flow_pt i)

/-- `head_interp_eqn` (lines 48-59): given the current numeric value `q` of
`flow_mol`, the right-hand side of the one constraint emitted for
`head_interp`, as a function of the symbolic flow variable.  Outside all
segments the emitted equation clamps to the first or last stored head. -/
def head_interp_eqn (q : ℚ) : ℚ → ℚ :=
  match findSeg q with
  | some i => headSegAffine i
  | none => if q < flow_pt 0 then fun _ => head_pt 0 else fun _ => head_pt 9

/-- `eff_interp_eqn` (lines 61-72): as `head_interp_eqn` for `eff_interp`;
below the first breakpoint the emitted equation is `eff_interp == 0`
(line 70), above the last it clamps to the last stored efficiency. -/
def eff_interp_eqn (q : ℚ) : ℚ → ℚ :=
  match findSeg q with
  | some i => effSegAffine i
  | none => if q < flow_pt 0 then fun _ => 0 else fun _ => eff_pt 9

/-! ### Exact breakpoint values, used as rewrite rules in the proofs -/

/-- Exact value of breakpoint flow 0 (mol/s). -/
theorem flow_pt_0 : flow_pt 0 = 0 := by
  norm_num [flow_pt, flow_data_m3h]

/-- Exact value of breakpoint flow 1 (mol/s). -/
theorem flow_pt_1 : flow_pt 1 = 722503825 / 64855008 := by
  norm_num [flow_pt, flow_data_m3h, water_density, water_mw]

/-- Exact value of breakpoint flow 2 (mol/s). -/
theorem flow_pt_2 : flow_pt 2 = 1446004207 / 64855008 := by
  norm_num [flow_pt, flow_data_m3h, water_density, water_mw]

/-- Exact value of breakpoint flow 3 (mol/s). -/
theorem flow_pt_3 : flow_pt 3 = 67765876 / 2026719 := by
  norm_num [flow_pt, flow_data_m3h, water_density, water_mw]

/-- Exact value of breakpoint flow 4 (mol/s). -/
theorem flow_pt_4 : flow_pt 4 = 1446004207 / 32427504 := by
  norm_num [flow_pt, flow_data_m3h, water_density, water_mw]

/-- Exact value of breakpoint flow 5 (mol/s). -/
theorem flow_pt_5 : flow_pt 5 = 3253758605 / 64855008 := by
  norm_num [flow_pt, flow_data_m3h, water_density, water_mw]

/-- Exact value of breakpoint flow 6 (mol/s). -/
theorem flow_pt_6 : flow_pt 6 = 401612471 / 7206112 := by
  norm_num [flow_pt, flow_data_m3h, water_density, water_mw]

/-- Exact value of breakpoint flow 7 (mol/s). -/
theorem flow_pt_7 : flow_pt 7 = 662710405 / 10809168 := by
  norm_num [flow_pt, flow_data_m3h, water_density, water_mw]

/-- Exact value of breakpoint flow 8 (mol/s). -/
theorem flow_pt_8 : flow_pt 8 = 1446004207 / 21618336 := by
  norm_num [flow_pt, flow_data_m3h, water_density, water_mw]

/-- Exact value of breakpoint flow 9 (mol/s). -/
theorem flow_pt_9 : flow_pt 9 = 130548967 / 1801528 := by
  norm_num [flow_pt, flow_data_m3h, water_density, water_mw]

/-- Exact value of head breakpoint 0 (J/kg). -/
theorem head_pt_0 : head_pt 0 = 133004961 / 50000 := by
  norm_num [head_pt, head_data_m, grav]

/-- Exact value of head breakpoint 1 (J/kg). -/
theorem head_pt_1 : head_pt 1 = 263793843 / 100000 := by
  norm_num [head_pt, head_data_m, grav]

/-- Exact value of head breakpoint 2 (J/kg). -/
theorem head_pt_2 : head_pt 2 = 261576783 / 100000 := by
  norm_num [head_pt, head_data_m, grav]

/-- Exact value of head breakpoint 3 (J/kg). -/
theorem head_pt_3 : head_pt 3 = 31865823 / 12500 := by
  norm_num [head_pt, head_data_m, grav]

/-- Exact value of head breakpoint 4 (J/kg). -/
theorem head_pt_4 : head_pt 4 = 48768453 / 20000 := by
  norm_num [head_pt, head_data_m, grav]

/-- Exact value of head breakpoint 5 (J/kg). -/
theorem head_pt_5 : head_pt 5 = 232758927 / 100000 := by
  norm_num [head_pt, head_data_m, grav]

/-- Exact value of head breakpoint 6 (J/kg). -/
theorem head_pt_6 : head_pt 6 = 221675589 / 100000 := by
  norm_num [head_pt, head_data_m, grav]

/-- Exact value of head breakpoint 7 (J/kg). -/
theorem head_pt_7 : head_pt 7 = 21059127 / 10000 := by
  norm_num [head_pt, head_data_m, grav]

/-- Exact value of head breakpoint 8 (J/kg). -/
theorem head_pt_8 : head_pt 8 = 48768453 / 25000 := by
  norm_num [head_pt, head_data_m, grav]

/-- Exact value of head breakpoint 9 (J/kg). -/
theorem head_pt_9 : head_pt 9 = 7093611 / 4000 := by
  norm_num [head_pt, head_data_m, grav]

/-- Exact value of efficiency breakpoint 0. -/
theorem eff_pt_0 : eff_pt 0 = 0 := by norm_num [eff_pt, eff_data]

/-- Exact value of efficiency breakpoint 1. -/
theorem eff_pt_1 : eff_pt 1 = 3 / 10 := by norm_num [eff_pt, eff_data]

/-- Exact value of efficiency breakpoint 2. -/
theorem eff_pt_2 : eff_pt 2 = 61 / 125 := by norm_num [eff_pt, eff_data]

/-- Exact value of efficiency breakpoint 3. -/
theorem eff_pt_3 : eff_pt 3 = 319 / 500 := by norm_num [eff_pt, eff_data]

/-- Exact value of efficiency breakpoint 4. -/
theorem eff_pt_4 : eff_pt 4 = 713 / 1000 := by norm_num [eff_pt, eff_data]

/-- Exact value of efficiency breakpoint 5. -/
theorem eff_pt_5 : eff_pt 5 = 147 / 200 := by norm_num [eff_pt, eff_data]

/-- Exact value of efficiency breakpoint 6. -/
theorem eff_pt_6 : eff_pt 6 = 3 / 4 := by norm_num [eff_pt, eff_data]

/-- Exact value of efficiency breakpoint 7. -/
theorem eff_pt_7 : eff_pt 7 = 147 / 200 := by norm_num [eff_pt, eff_data]

/-- Exact value of efficiency breakpoint 8. -/
theorem eff_pt_8 : eff_pt 8 = 713 / 1000 := by norm_num [eff_pt, eff_data]

/-- Exact value of efficiency breakpoint 9. -/
theorem eff_pt_9 : eff_pt 9 = 27 / 40 := by norm_num [eff_pt, eff_data]

/-- Every breakpoint flow value is nonnegative (the first breakpoint is 0 and
the data are increasing). -/
theorem flow_pt_nonneg {i : Nat} (hi : i ≤ 9) : 0 ≤ flow_pt i := by
  interval_cases i <;>
    simp only [flow_pt_0, flow_pt_1, flow_pt_2, flow_pt_3, flow_pt_4, flow_pt_5,
      flow_pt_6, flow_pt_7, flow_pt_8, flow_pt_9] <;> norm_num

/-- Every breakpoint flow value is at most the last one. -/
theorem flow_pt_le_last {i : Nat} (hi : i ≤ 9) : flow_pt i ≤ flow_pt 9 := by
  interval_cases i <;>
    simp only [flow_pt_0, flow_pt_1, flow_pt_2, flow_pt_3, flow_pt_4, flow_pt_5,
      flow_pt_6, flow_pt_7, flow_pt_8, flow_pt_9] <;> norm_num

/-- Claim C2: when the flow variable's current value equals the k-th
breakpoint flow exactly, the emitted piecewise constraints pin the
interpolated head and efficiency to the k-th stored head and efficiency
exactly (the emitted affine equation, evaluated at that same flow value,
gives the stored breakpoint values with no tolerance). -/
theorem claim_C2 (k : Nat) (hk : k < 10) :
    head_interp_eqn (flow_pt k) (flow_pt k) = head_pt k ∧
    eff_interp_eqn (flow_pt k) (flow_pt k) = eff_pt k := by
  interval_cases k <;>
    constructor <;>
    norm_num [head_interp_eqn, eff_interp_eqn, findSeg, headSegAffine, effSegAffine,
      List.range_succ, List.find?,
      flow_pt_0, flow_pt_1, flow_pt_2, flow_pt_3, flow_pt_4, flow_pt_5, flow_pt_6,
      flow_pt_7, flow_pt_8, flow_pt_9,
      head_pt_0, head_pt_1, head_pt_2, head_pt_3, head_pt_4, head_pt_5, head_pt_6,
      head_pt_7, head_pt_8, head_pt_9,
      eff_pt_0, eff_pt_1, eff_pt_2, eff_pt_3, eff_pt_4, eff_pt_5, eff_pt_6,
      eff_pt_7, eff_pt_8, eff_pt_9]

/-- Claim C2, witness at breakpoint 3. -/
theorem claim_C2_witness :
    (3 : Nat) < 10 ∧
      (head_interp_eqn (flow_pt 3) (flow_pt 3) = head_pt 3 ∧
        eff_interp_eqn (flow_pt 3) (flow_pt 3) = eff_pt 3) :=
  ⟨by norm_num, claim_C2 3 (by norm_num)⟩

/-- Claim C3: for any current flow value strictly below the first breakpoint
the emitted equations pin the interpolated head to the first stored head and
the interpolated efficiency to zero, regardless of the symbolic flow value;
for any current flow value strictly above the last breakpoint they pin both
to the last stored values. -/
theorem claim_C3 (q x : ℚ) :
    (q < flow_pt 0 → head_interp_eqn q x = head_pt 0 ∧ eff_interp_eqn q x = 0) ∧
    (flow_pt 9 < q → head_interp_eqn q x = head_pt 9 ∧ eff_interp_eqn q x = eff_pt 9) := by
  constructor
  · intro hq
    have hq0 : q < 0 := by rw [flow_pt_0] at hq; exact hq
    have hnone : findSeg q = none := by
      rw [findSeg, List.find?_eq_none]
      intro i hi
      have hi9 : i < 9 := List.mem_range.mp hi
      have h0 : 0 ≤ flow_pt i := flow_pt_nonneg (by omega)
      simp only [decide_eq_true_eq, not_and]
      intro hle
      linarith
    constructor <;> simp [head_interp_eqn, eff_interp_eqn, hnone, if_pos hq]
  · intro hq
    have h0 : (0 : ℚ) ≤ flow_pt 9 := flow_pt_nonneg (by omega)
    have hnotlt : ¬ q < flow_pt 0 := by rw [flow_pt_0]; linarith
    have hnone : findSeg q = none := by
      rw [findSeg, List.find?_eq_none]
      intro i hi
      have hi9 : i < 9 := List.mem_range.mp hi
      have hle9 : flow_pt (i + 1) ≤ flow_pt 9 := flow_pt_le_last (by omega)
      simp only [decide_eq_true_eq, not_and]
      intro _ hle
      linarith
    constructor <;> simp [head_interp_eqn, eff_interp_eqn, hnone, if_neg hnotlt]

/-- Claim C3, witness: a flow value below the first breakpoint and one above
the last breakpoint, each with a symbolic flow value of 7 mol/s. -/
theorem claim_C3_witness :
    (head_interp_eqn (-1) 7 = head_pt 0 ∧ eff_interp_eqn (-1) 7 = 0) ∧
    (head_interp_eqn 100 7 = head_pt 9 ∧ eff_interp_eqn 100 7 = eff_pt 9) :=
  ⟨(claim_C3 (-1) 7).1 (by norm_num [flow_pt_0]),
    (claim_C3 100 7).2 (by norm_num [flow_pt_9])⟩

/-- Claim C8: the segment lookup compares the current numeric value of the
flow variable against the breakpoints at constraint-construction time, and
the single constraint emitted is the affine equation of that one bracketing
segment; the emitted equation is a function of that numeric value only and
is not valid over all flow values simultaneously (the equation built at
flow value 30 mol/s, evaluated at 60 mol/s, disagrees with the equation
built at 60 mol/s). -/
theorem claim_C8 :
    (∀ q : ℚ, ∀ i : Nat, findSeg q = some i →
        (flow_pt i ≤ q ∧ q ≤ flow_pt (i + 1)) ∧
        head_interp_eqn q = headSegAffine i ∧
        eff_interp_eqn q = effSegAffine i) ∧
    head_interp_eqn 30 60 ≠ head_interp_eqn 60 60 := by
  constructor
  · intro q i h
    refine ⟨?_, ?_, ?_⟩
    · have hp := List.find?_some h
      simpa using hp
    · simp [head_interp_eqn, h]
    · simp [eff_interp_eqn, h]
  · norm_num [head_interp_eqn, findSeg, headSegAffine, List.range_succ, List.find?,
      flow_pt_0, flow_pt_1, flow_pt_2, flow_pt_3, flow_pt_4, flow_pt_5, flow_pt_6,
      flow_pt_7, flow_pt_8, flow_pt_9,
      head_pt_0, head_pt_1, head_pt_2, head_pt_3, head_pt_4, head_pt_5, head_pt_6,
      head_pt_7, head_pt_8, head_pt_9]

/-- Claim C8, witness: at flow value 30 mol/s the lookup selects segment 2
and emits exactly that segment's affine equation. -/
theorem claim_C8_witness :
    (flow_pt 2 ≤ 30 ∧ (30 : ℚ) ≤ flow_pt 3) ∧
    head_interp_eqn 30 = headSegAffine 2 ∧
    eff_interp_eqn 30 = effSegAffine 2 :=
  claim_C8.1 30 2
    (by norm_num [findSeg, List.range_succ, List.find?,
      flow_pt_0, flow_pt_1, flow_pt_2, flow_pt_3, flow_pt_4, flow_pt_5, flow_pt_6,
      flow_pt_7, flow_pt_8, flow_pt_9])

/-! ### Streams and default specifications

A stream specification fixes the five state variables that every script's
feed carries: total molar flow, the two component mole fractions, pressure
and temperature. -/

/-- A stream of the methanol/ethanol property package: the five primitive
state values fixed at a feed or carried at a port. -/
structure Stream where
  flow_mol : ℚ
  x_methanol : ℚ
  x_ethanol : ℚ
  pressure : ℚ
  temperature : ℚ
deriving DecidableEq

/-- Default feed of the separator flowsheet (separator.py lines 32-37,
fixed at lines 62-66). -/
def separator_feed : Stream := ⟨100, 0.6, 0.4, 101325, 298⟩

/-- The split fraction fixed for outlet `To_Vessel_1` (separator.py
line 68). -/
def separator_split_frac : ℚ := 0.2

/-- Default methanol feed of the mixer flowsheet (mixer.py lines 30-36,
fixed at lines 65-69). -/
def methanol_stream : Stream := ⟨100, 1.0, 1e-15, 101325, 298⟩

/-- Default ethanol feed of the mixer flowsheet (mixer.py lines 37-43,
fixed at lines 71-75). -/
def ethanol_stream : Stream := ⟨100, 1e-15, 1.0, 101325, 298⟩

/-- The four mole-fraction values fixed by `setup_mixer_model` with its
default arguments (mixer.py lines 66-67 and 72-73). -/
def mixer_fixed_mole_fracs : List ℚ :=
  [methanol_stream.x_methanol, methanol_stream.x_ethanol,
   ethanol_stream.x_methanol, ethanol_stream.x_ethanol]

/-- Claim C10: in the mixer flowsheet's default feed streams the absent
component's mole fraction is fixed to 1e-15, not 0, so each feed's fixed
mole fractions sum to 1 + 1e-15 rather than exactly 1, and no fixed mole
fraction is exactly zero. -/
theorem claim_C10 :
    methanol_stream.x_ethanol = 1e-15 ∧
    ethanol_stream.x_methanol = 1e-15 ∧
    methanol_stream.x_methanol + methanol_stream.x_ethanol = 1 + 1e-15 ∧
    ethanol_stream.x_methanol + ethanol_stream.x_ethanol = 1 + 1e-15 ∧
    methanol_stream.x_methanol + methanol_stream.x_ethanol ≠ 1 ∧
    ethanol_stream.x_methanol + ethanol_stream.x_ethanol ≠ 1 ∧
    (0 : ℚ) ∉ mixer_fixed_mole_fracs := by
  refine ⟨?_, ?_, ?_, ?_, ?_, ?_, ?_⟩ <;>
    norm_num [methanol_stream, ethanol_stream, mixer_fixed_mole_fracs]

/-! ### Degrees-of-freedom bookkeeping of the scripts

The scripts call the framework's `degrees_of_freedom` and print the value;
the framework code itself is not part of the repository. -/

/-- The six specifications of the heater flowsheet that are free after
build and arc expansion (heater_cooler.py lines 51-57): the five feed state
values and the heater duty. -/
inductive HeaterSpec
  | flow | xMeoh | xEtoh | press | temp | duty
deriving DecidableEq

/-- Modelled from the spec: the degrees-of-freedom analyzer
(`degrees_of_freedom`, imported at heater_cooler.py line 24 from the IDAES
framework, which is not part of the repository), restricted to the heater
flowsheet: DOF = free variables minus active constraints = 6 minus the
number of distinct fixed specifications. -/
def heaterDOF (fixed : List HeaterSpec) : Int :=
  6 - fixed.dedup.length

/-- The feed fixes performed by `setup_heater_heat_duty_model`
(heater_cooler.py lines 51-55). -/
def heater_feed_fixes : List HeaterSpec :=
  [.flow, .xMeoh, .xEtoh, .press, .temp]

/-- All fixes performed by `setup_heater_heat_duty_model`, the duty fix of
line 57 included. -/
def heater_all_fixes : List HeaterSpec :=
  heater_feed_fixes ++ [.duty]

/-- The six specifications of the separator flowsheet that are free after
build and arc expansion (separator.py lines 62-68): the five feed state
values and one split fraction. -/
inductive SepSpec
  | flow | xMeoh | xEtoh | press | temp | split1
deriving DecidableEq

/-- Modelled from the spec: the degrees-of-freedom analyzer restricted to
the separator flowsheet: 6 minus the number of distinct fixed
specifications. -/
def separatorDOF (fixed : List SepSpec) : Int :=
  6 - fixed.dedup.length

/-- All fixes performed by `setup_separator_model` (separator.py
lines 62-68). -/
def separator_all_fixes : List SepSpec :=
  [.flow, .xMeoh, .xEtoh, .press, .temp, .split1]

/-! ### Solve-request control flow of the scripts -/

/-- An observable event of a script's solve sequence. -/
inductive SolveEvent
  | printDOF (d : Int)
  | specError
  | solverCall
deriving DecidableEq

/-- Embeds heater_cooler.py lines 59-62: after the fixes, the script prints
the DOF value and then calls `solver.solve(m)` unconditionally; no branch
inspects the DOF value and nothing can raise a `SpecificationError`. -/
def heater_solve_steps (d : Int) : List SolveEvent :=
  [.printDOF d, .solverCall]

/-- Embeds separator.py lines 70-73: identical print-then-solve sequence. -/
def separator_solve_steps (d : Int) : List SolveEvent :=
  [.printDOF d, .solverCall]

/-- Claim C1, counterexample: on the heater flowsheet with only the feed
fixed, DOF is 1 (nonzero), yet the solve sequence invokes the external
solver and raises no `SpecificationError` - the claimed DOF gate does not
exist in the scripts. -/
theorem claim_C1_cex :
    heaterDOF heater_feed_fixes = 1 ∧
    heaterDOF heater_feed_fixes ≠ 0 ∧
    SolveEvent.solverCall ∈ heater_solve_steps (heaterDOF heater_feed_fixes) ∧
    SolveEvent.specError ∉ heater_solve_steps (heaterDOF heater_feed_fixes) := by
  refine ⟨?_, ?_, ?_, ?_⟩ <;> decide

/-- Claim C1 (amended): the scripts print the DOF immediately before the
solve but never gate it: for every DOF value the external solver is invoked
and no `SpecificationError` event occurs, in the heater script and in the
separator script alike; in each script's own default flow the DOF at the
moment of the solve is 0. -/
theorem claim_C1 :
    (∀ d : Int,
      SolveEvent.solverCall ∈ heater_solve_steps d ∧
      SolveEvent.specError ∉ heater_solve_steps d ∧
      SolveEvent.solverCall ∈ separator_solve_steps d ∧
      SolveEvent.specError ∉ separator_solve_steps d) ∧
    heaterDOF heater_all_fixes = 0 ∧
    separatorDOF separator_all_fixes = 0 := by
  refine ⟨fun d => ⟨?_, ?_, ?_, ?_⟩, by decide, by decide⟩ <;>
    simp [heater_solve_steps, separator_solve_steps]

/-! ### Warm-start (sequential initial-solve) control flow -/

/-- An observable event of a script's warm-start-and-solve sequence. -/
inductive RunEvent
  | initCall (unit : String)
  | failureMessage
  | globalSolve
deriving DecidableEq

/-- Embeds pump_curves.py lines 118-135: the script wraps
`initializer.initialize(m.fs.unit); solver.solve(m)` in a `try` block whose
`except` handler prints a failure message and then calls `solver.solve(m)`
anyway on the non-warm-started model.  The parameter says whether the unit's
local initial solve raises. -/
def pump_curves_run (initRaises : Bool) : List RunEvent :=
  if initRaises then
    [.initCall "fs.unit", .failureMessage, .globalSolve]
  else
    [.initCall "fs.unit", .globalSolve]

/-- The units of the pump flowsheet in the order their local initial solves
are requested (pump.py lines 80-83). -/
def pump_units : List String :=
  ["methanol_ethanol_mix", "Pump_3", "Pump_4", "product"]

/-- Embeds pump.py lines 80-87: sequential per-unit initial solves with no
exception handler, then the global solve.  If the local solve of unit `i`
raises, the exception propagates: the run ends with that unit's call and
neither the remaining units nor the global solve are reached. -/
def pump_run (failIdx : Option Nat) : List RunEvent :=
  match failIdx with
  | none => pump_units.map RunEvent.initCall ++ [.globalSolve]
  | some i => (pump_units.take (i + 1)).map RunEvent.initCall

/-- Claim C6, counterexample: in pump_curves.py a failing local initial
solve does not abort the call - the handler prints a message and a global
solve IS attempted on the non-warm-started flowsheet in that same call. -/
theorem claim_C6_cex :
    RunEvent.globalSolve ∈ pump_curves_run true ∧
    RunEvent.failureMessage ∈ pump_curves_run true := by
  constructor <;> decide

/-- Claim C6 (amended): in pump.py the sequential per-unit warm start has no
handler, so a failure at unit `i` stops the sequence - the trace ends at the
failing unit's call and no global solve happens in that call; but in
pump_curves.py the failure is caught, a failure message is printed, and a
global solve is attempted on the non-warm-started model in the same call. -/
theorem claim_C6 :
    (∀ i : Nat, i < pump_units.length →
      RunEvent.globalSolve ∉ pump_run (some i) ∧
      (pump_run (some i)).getLast? =
        some (RunEvent.initCall (pump_units.getD i ""))) ∧
    RunEvent.globalSolve ∈ pump_curves_run true ∧
    RunEvent.failureMessage ∈ pump_curves_run true := by
  refine ⟨fun i hi => ?_, by decide, by decide⟩
  have h4 : pump_units.length = 4 := by decide
  rw [h4] at hi
  interval_cases i <;> exact ⟨by decide, by decide⟩

/-- Claim C6 (amended), witness: a failure at the second unit (`Pump_3`). -/
theorem claim_C6_witness :
    (RunEvent.globalSolve ∉ pump_run (some 1) ∧
      (pump_run (some 1)).getLast? = some (RunEvent.initCall "Pump_3")) ∧
    RunEvent.globalSolve ∈ pump_curves_run true :=
  ⟨claim_C6.1 1 (by decide), claim_C6.2.1⟩

/-- Claim C1 (amended), witness: with DOF value 5 the heater script's solve
sequence still invokes the solver and raises nothing. -/
theorem claim_C1_witness :
    SolveEvent.solverCall ∈ heater_solve_steps 5 ∧
    SolveEvent.specError ∉ heater_solve_steps 5 ∧
    SolveEvent.solverCall ∈ separator_solve_steps 5 ∧
    SolveEvent.specError ∉ separator_solve_steps 5 :=
  claim_C1.1 5

/-! ### Heater scenario (heater_cooler.py, setup_heater_heat_duty_model) -/

/-- Modelled from the spec: the heater energy balance - outlet enthalpy
flow minus duty minus inlet enthalpy flow equals zero, where `hmol` is the
molar-enthalpy correlation of the property package as a function of
temperature.  The property correlations and the balance live in the IDAES
framework and the `methanol_ethanol` data tables, not in repository logic;
the spec gives the balance shape and declares the correlations continuous
fits, strictly increasing in temperature on the valid range. -/
def heaterEnergyBalance (flow duty : ℚ) (hmol : ℚ → ℚ) (tin tout : ℚ) : Prop :=
  flow * hmol tout - duty - flow * hmol tin = 0

/-- Claim C4: with the default feed of `setup_heater_heat_duty_model` the
DOF is 1 before the duty fix and 0 after it, and at any converged solution
of the energy balance with duty 2 500 000 W and flow 100 mol/s - which is
what an `optimal` termination reports - the outlet temperature is strictly
greater than the 298 K inlet, for every strictly increasing molar-enthalpy
correlation. -/
theorem claim_C4 :
    heaterDOF heater_feed_fixes = 1 ∧
    heaterDOF heater_all_fixes = 0 ∧
    ∀ hmol : ℚ → ℚ, StrictMono hmol → ∀ tout : ℚ,
      heaterEnergyBalance 100 2500000 hmol 298 tout → 298 < tout := by
  refine ⟨by decide, by decide, fun hmol hm tout hbal => ?_⟩
  rw [heaterEnergyBalance] at hbal
  have hlt : hmol 298 < hmol tout := by linarith
  exact hm.lt_iff_lt.mp hlt

/-- Claim C4, witness: the identity correlation and outlet temperature
25 298 K satisfy the balance, and the theorem yields 298 < 25 298. -/
theorem claim_C4_witness :
    heaterEnergyBalance 100 2500000 id 298 25298 ∧ (298 : ℚ) < 25298 :=
  ⟨by norm_num [heaterEnergyBalance],
    claim_C4.2.2 id strictMono_id 25298 (by norm_num [heaterEnergyBalance])⟩

/-! ### Separator scenario (separator.py, setup_separator_model) -/

/-- Modelled from the spec: the separator with `totalFlow` split basis -
each outlet carries its split fraction times the inlet total flow with
composition, pressure and temperature identical to the inlet, and the
fractions over the two outlets sum to 1, so the second outlet carries
1 minus the first fraction.  The split equations live in the IDAES
framework, not in the repository. -/
def separatorSplit (inlet : Stream) (frac1 : ℚ) : Stream × Stream :=
  ({ inlet with flow_mol := frac1 * inlet.flow_mol },
   { inlet with flow_mol := (1 - frac1) * inlet.flow_mol })

/-- Claim C5: with the inlet fixed at 100 mol/s and
`split_fraction[To_Vessel_1]` fixed at 0.2, the converged outlets carry
20 mol/s and 80 mol/s (within 1e-6; here exactly), both with composition
identical to the inlet, and the split fractions sum to 1. -/
theorem claim_C5 :
    |(separatorSplit separator_feed separator_split_frac).1.flow_mol - 20| ≤ 1e-6 ∧
    |(separatorSplit separator_feed separator_split_frac).2.flow_mol - 80| ≤ 1e-6 ∧
    (separatorSplit separator_feed separator_split_frac).1.x_methanol =
      separator_feed.x_methanol ∧
    (separatorSplit separator_feed separator_split_frac).1.x_ethanol =
      separator_feed.x_ethanol ∧
    (separatorSplit separator_feed separator_split_frac).2.x_methanol =
      separator_feed.x_methanol ∧
    (separatorSplit separator_feed separator_split_frac).2.x_ethanol =
      separator_feed.x_ethanol ∧
    separator_split_frac + (1 - separator_split_frac) = 1 := by
  refine ⟨?_, ?_, rfl, rfl, rfl, rfl, by norm_num⟩ <;>
    norm_num [separatorSplit, separator_feed, separator_split_frac, abs_le]

/-! ### Mixer outlet pressure (mixer.py, momentum_mixing_type=minimize) -/

/-- Modelled from the spec: the `minimize` momentum-mixing policy sets the
mixer outlet pressure to the minimum of its inlet ports' pressures; the
first inlet's pressure is folded with the remaining ones.  The policy's
equations live in the IDAES framework, not in the repository. -/
def mixerOutletPressure (p : ℚ) (ps : List ℚ) : ℚ :=
  ps.foldl min p

/-- The folded minimum is a lower bound of all inlet pressures. -/
theorem mixerOutletPressure_le (ps : List ℚ) :
    ∀ p : ℚ, ∀ x ∈ p :: ps, mixerOutletPressure p ps ≤ x := by
  induction ps with
  | nil =>
    intro p x hx
    have hxp : x = p := by simpa using hx
    simp [mixerOutletPressure, hxp]
  | cons a as ih =>
    intro p x hx
    show mixerOutletPressure (min p a) as ≤ x
    rcases List.mem_cons.mp hx with h | h
    · calc mixerOutletPressure (min p a) as ≤ min p a :=
            ih (min p a) (min p a) (List.mem_cons_self _ _)
        _ ≤ x := by rw [h]; exact min_le_left _ _
    rcases List.mem_cons.mp h with h1 | h1
    · calc mixerOutletPressure (min p a) as ≤ min p a :=
            ih (min p a) (min p a) (List.mem_cons_self _ _)
        _ ≤ x := by rw [h1]; exact min_le_right _ _
    · exact ih (min p a) x (List.mem_cons_of_mem _ h1)

/-- The folded minimum is one of the inlet pressures. -/
theorem mixerOutletPressure_mem (ps : List ℚ) :
    ∀ p : ℚ, mixerOutletPressure p ps ∈ p :: ps := by
  induction ps with
  | nil => intro p; simp [mixerOutletPressure]
  | cons a as ih =>
    intro p
    show mixerOutletPressure (min p a) as ∈ p :: a :: as
    rcases List.mem_cons.mp (ih (min p a)) with h1 | h1
    · rcases min_choice p a with hm | hm
      · rw [h1, hm]; exact List.mem_cons_self _ _
      · rw [h1, hm]; exact List.mem_cons_of_mem _ (List.mem_cons_self _ _)
    · exact List.mem_cons_of_mem _ (List.mem_cons_of_mem _ h1)

/-- Claim C7: for a mixer built with the minimize momentum-mixing policy
the converged outlet pressure is the minimum of its inlet ports' pressures
(it is one of them and a lower bound of all of them), and on the mixer
flowsheet's two default feeds, both at 101 325 Pa, it equals 101 325 Pa. -/
theorem claim_C7 :
    (∀ (p : ℚ) (ps : List ℚ),
      mixerOutletPressure p ps ∈ p :: ps ∧
      ∀ x ∈ p :: ps, mixerOutletPressure p ps ≤ x) ∧
    mixerOutletPressure methanol_stream.pressure [ethanol_stream.pressure] = 101325 :=
  ⟨fun p ps => ⟨mixerOutletPressure_mem ps p, mixerOutletPressure_le ps p⟩,
    by norm_num [mixerOutletPressure, methanol_stream, ethanol_stream]⟩

/-- Claim C7, witness: on the two default 101 325 Pa inlet pressures the
outlet pressure is one of them and bounded by each. -/
theorem claim_C7_witness :
    mixerOutletPressure 101325 [101325] ∈ [(101325 : ℚ), 101325] ∧
    mixerOutletPressure 101325 [101325] ≤ 101325 :=
  ⟨(claim_C7.1 101325 [101325]).1,
    (claim_C7.1 101325 [101325]).2 101325 (List.mem_cons_self _ _)⟩

/-! ### Separator report plumbing (separator.py, report_separator_properties) -/

/-- The four unit blocks of the solved separator model whose `report()`
methods expose their port values; `α` is the payload of one unit's
report. -/
structure SepReportModel (α : Type) where
  feed : α
  separator : α
  to_vessel_1 : α
  to_vessel_2 : α

/-- Embeds `report_separator_properties` (separator.py lines 77-84): the
four returned reports.  Line 82 builds the `to_vessel_2` entry by calling
`model.fs.to_vessel_1.report()`, so the fourth entry repeats the first
outlet vessel's report and `to_vessel_2.report()` is never invoked. -/
def report_separator_properties {α : Type} (m : SepReportModel α) :
    α × α × α × α :=
  (m.feed, m.separator, m.to_vessel_1, m.to_vessel_1)

/-- Claim C9: the third and fourth entries returned by the separator report
function both reflect `to_vessel_1`'s values, and the returned tuple does
not depend on `to_vessel_2`'s values at all (its `report()` is never
invoked). -/
theorem claim_C9 (α : Type) (m : SepReportModel α) :
    (report_separator_properties m).2.2.1 = m.to_vessel_1 ∧
    (report_separator_properties m).2.2.2 = m.to_vessel_1 ∧
    ∀ v2 : α, report_separator_properties { m with to_vessel_2 := v2 } =
      report_separator_properties m :=
  ⟨rfl, rfl, fun _ => rfl⟩

/-- Claim C9, witness: a concrete model whose vessel-2 payload differs. -/
theorem claim_C9_witness :
    (report_separator_properties (⟨1, 2, 3, 4⟩ : SepReportModel ℚ)).2.2.2 = 3 ∧
    report_separator_properties (⟨1, 2, 3, 5⟩ : SepReportModel ℚ) =
      report_separator_properties (⟨1, 2, 3, 4⟩ : SepReportModel ℚ) :=
  ⟨(claim_C9 ℚ ⟨1, 2, 3, 4⟩).2.1, (claim_C9 ℚ ⟨1, 2, 3, 4⟩).2.2 5⟩

end IdaesExamples
